import Mathlib

/-!
Verification of the `LinearModel` class from `src/linear_model.py`.

Numbers are embedded as exact rationals (`ℚ`), idealizing Python floats;
`math.sqrt` is embedded as `Real.sqrt` after casting to `ℝ`.  All methods
are translated as pure functions: mutating methods (`step`,
`update_history`) return the updated model, and `__init__`'s calls to
`random.random()` are passed in explicitly as oracle values `randM`,
`randB` (each call of the Python constructor draws them uniformly from
[0, 1)).
-/

/-- Snapshot appended to `history` by `update_history`
(the Python dict `{'m': ..., 'b': ..., 'observation': ..., 'prediction': ...,
'error': ..., 'loss': ..., 'epoch': ..., 'message': ...}`). -/
structure TrainingRecord where
  m : ℚ
  b : ℚ
  observation : ℚ × ℚ
  prediction : ℚ
  error : ℚ
  loss : ℚ
  epoch : ℤ
  message : Option String
deriving DecidableEq, Repr

/-- The state of a `LinearModel` instance: slope `m`, intercept `b`, and
the append-only `history` list. -/
structure LinearModel where
  m : ℚ
  b : ℚ
  history : List TrainingRecord
deriving DecidableEq, Repr

/-- Python truthiness fallback `v or r` for an optional float `v`:
`None` and `0.0` are falsy, any other float is truthy. -/
def pyOr (v : Option ℚ) (r : ℚ) : ℚ :=
  match v with
  | none => r
  | some q => if q = 0 then r else q

/-- `LinearModel.__init__(self, m=None, b=None)`:
`self.m = m or random.random()`, `self.b = b or random.random()`,
`self.history = []`.  The two random draws are the oracle arguments
`randM` and `randB`. -/
def LinearModel.init (m b : Option ℚ) (randM randB : ℚ) : LinearModel :=
  { m := pyOr m randM, b := pyOr b randB, history := [] }

/-- `predict(self, x)`: `return self.m*x + self.b`. -/
def LinearModel.predict (md : LinearModel) (x : ℚ) : ℚ :=
  md.m * x + md.b

/-- `error(self, x, y)`: `return self.predict(x) - y`. -/
def LinearModel.error (md : LinearModel) (x y : ℚ) : ℚ :=
  md.predict x - y

/-- `gradient(self, x, y)`: `return x * self.error(x,y), self.error(x,y)`. -/
def LinearModel.gradient (md : LinearModel) (x y : ℚ) : ℚ × ℚ :=
  (x * md.error x y, md.error x y)

/-- `loss(self, x, y)`: `return self.error(x, y)**2`. -/
def LinearModel.loss (md : LinearModel) (x y : ℚ) : ℚ :=
  (md.error x y) ^ 2

/-- The one failure `rmse` can raise: Python's `ZeroDivisionError`,
from the `/ len(xlist)` when `xlist` is empty.  (`math.sqrt`'s domain
error is unreachable: the summands are squares.) -/
inductive PyError where
  | zeroDivisionError
deriving DecidableEq, Repr

/-- `rmse(self, xlist, ylist)`:
`return math.sqrt(sum(list(self.loss(x,y) for x,y in zip(xlist, ylist)))) / len(xlist)`.
`zip` truncates to the shorter input; the division raises
`ZeroDivisionError` exactly when `len(xlist) == 0`. -/
noncomputable def LinearModel.rmse (md : LinearModel) (xlist ylist : List ℚ) :
    Except PyError ℝ :=
  if xlist.length = 0 then Except.error PyError.zeroDivisionError
  else Except.ok
    (Real.sqrt ((((xlist.zip ylist).map (fun p => md.loss p.1 p.2)).sum : ℚ) : ℝ)
      / (xlist.length : ℝ))

/-- `step(self, m_step, b_step)`: `self.m += m_step; self.b += b_step`. -/
def LinearModel.step (md : LinearModel) (mStep bStep : ℚ) : LinearModel :=
  { md with m := md.m + mStep, b := md.b + bStep }

/-- `update_history(self, x, y, epoch=0, message=None)`: appends the
snapshot dict built from the current parameters to `self.history`. -/
def LinearModel.update_history (md : LinearModel) (x y : ℚ) (epoch : ℤ)
    (message : Option String) : LinearModel :=
  { md with history := md.history ++
      [{ m := md.m, b := md.b, observation := (x, y),
         prediction := md.predict x, error := md.error x y,
         loss := md.loss x y, epoch := epoch, message := message }] }

/-- Round a rational to the nearest integer, ties to even
(the rounding used by Python's fixed-point float formatting). -/
def roundHalfEven (q : ℚ) : ℤ :=
  let f : ℤ := ⌊q⌋
  let r : ℚ := q - f
  if r < 1/2 then f
  else if 1/2 < r then f + 1
  else if f % 2 = 0 then f else f + 1

/-- Left-pad a number below 1000 with zeros to three digits. -/
def pad3 (n : ℕ) : String :=
  if n < 10 then "00" ++ toString n
  else if n < 100 then "0" ++ toString n
  else toString n

/-- Fixed-point formatting with 3 decimal places, the embedding of
Python's `'{:.3f}'.format(q)`: round `q * 1000` half-to-even, then print
integer part, a dot, and the three-digit fractional part, with a leading
minus sign for negative inputs. -/
def format3 (q : ℚ) : String :=
  if q < 0 then
    let n : ℕ := (roundHalfEven (-q * 1000)).toNat
    "-" ++ toString (n / 1000) ++ "." ++ pad3 (n % 1000)
  else
    let n : ℕ := (roundHalfEven (q * 1000)).toNat
    toString (n / 1000) ++ "." ++ pad3 (n % 1000)

/-- `__str__(self)`: `return 'y = {:.3f}x + {:.3f}'.format(self.m, self.b)`. -/
def LinearModel.str (md : LinearModel) : String :=
  "y = " ++ format3 md.m ++ "x + " ++ format3 md.b

/-- Sum of a function mapped over a zip, rewritten as an indexed sum over
the positions up to the shorter length. -/
theorem zip_map_sum (f : ℚ → ℚ → ℚ) :
    ∀ (xs ys : List ℚ),
      ((xs.zip ys).map (fun p => f p.1 p.2)).sum =
        ∑ i ∈ Finset.range (min xs.length ys.length), f (xs.getD i 0) (ys.getD i 0) := by
  intro xs
  induction xs with
  | nil => intro ys; simp
  | cons x xs ih =>
    intro ys
    cases ys with
    | nil => simp
    | cons y ys =>
      simp only [List.zip_cons_cons, List.map_cons, List.sum_cons, ih,
        List.length_cons]
      rw [show min (xs.length + 1) (ys.length + 1) = min xs.length ys.length + 1 by
        omega]
      rw [Finset.sum_range_succ']
      simp [add_comm]

/-- C4: for every observation (x, y) and every model state,
`gradient(x, y)` returns the pair `(x * error(x, y), error(x, y))`
(no factor of 2), where `error(x, y) = m*x + b - y`, and it is a pure
function of the state. -/
theorem C4_gradient (md : LinearModel) (x y : ℚ) :
    md.gradient x y = (x * md.error x y, md.error x y) ∧
    md.error x y = md.m * x + md.b - y := by
  exact ⟨rfl, rfl⟩

/-- C7: for every model state and every x, `predict(x)` returns
`m * x + b` exactly; it does not change the model state. -/
theorem C7_predict (md : LinearModel) (x : ℚ) :
    md.predict x = md.m * x + md.b := rfl

/-- C8: for every observation (x, y) and every model state,
`loss(x, y)` equals `error(x, y)` squared, where
`error(x, y) = predict(x) - y`, and the loss is non-negative. -/
theorem C8_loss (md : LinearModel) (x y : ℚ) :
    md.loss x y = (md.error x y) ^ 2 ∧
    md.error x y = md.predict x - y ∧
    0 ≤ md.loss x y :=
  ⟨rfl, rfl, sq_nonneg _⟩

/-- C6: `step(a, b)` adds `a` to the slope and `b` to the intercept in
place, leaves the history untouched, and two successive steps equal one
step with summed arguments. -/
theorem C6_step (md : LinearModel) (a b c d : ℚ) :
    (md.step a b).m = md.m + a ∧
    (md.step a b).b = md.b + b ∧
    (md.step a b).history = md.history ∧
    (md.step a b).step c d = md.step (a + c) (b + d) := by
  refine ⟨rfl, rfl, rfl, ?_⟩
  simp only [LinearModel.step]
  congr 1 <;> ring

/-- C3: construction treats a supplied 0.0 as "not supplied": a slope or
intercept argument that is absent or equal to 0 is replaced by the
corresponding uniform [0, 1) random draw, a non-zero supplied value is
stored unchanged, and history starts empty. -/
theorem C3_init (m b : Option ℚ) (randM randB : ℚ)
    (hm0 : 0 ≤ randM) (hm1 : randM < 1) (hb0 : 0 ≤ randB) (hb1 : randB < 1) :
    ((m = none ∨ m = some 0) →
      (LinearModel.init m b randM randB).m = randM ∧
      0 ≤ (LinearModel.init m b randM randB).m ∧
      (LinearModel.init m b randM randB).m < 1) ∧
    (∀ q : ℚ, m = some q → q ≠ 0 → (LinearModel.init m b randM randB).m = q) ∧
    ((b = none ∨ b = some 0) →
      (LinearModel.init m b randM randB).b = randB ∧
      0 ≤ (LinearModel.init m b randM randB).b ∧
      (LinearModel.init m b randM randB).b < 1) ∧
    (∀ q : ℚ, b = some q → q ≠ 0 → (LinearModel.init m b randM randB).b = q) ∧
    (LinearModel.init m b randM randB).history = [] := by
  refine ⟨?_, ?_, ?_, ?_, rfl⟩
  · rintro (rfl | rfl) <;> simp_all [LinearModel.init, pyOr]
  · rintro q rfl hq
    simp [LinearModel.init, pyOr, hq]
  · rintro (rfl | rfl) <;> simp_all [LinearModel.init, pyOr]
  · rintro q rfl hq
    simp [LinearModel.init, pyOr, hq]

/-- C3 witness: constructing with slope explicitly 0 and intercept absent,
with random draws 1/2 and 1/3, yields slope 1/2, intercept 1/3, empty
history. -/
theorem C3_init_witness :
    (LinearModel.init (some 0) none (1/2) (1/3)).m = 1/2 ∧
    (LinearModel.init (some 0) none (1/2) (1/3)).b = 1/3 ∧
    (LinearModel.init (some 0) none (1/2) (1/3)).history = [] := by
  have h := C3_init (some 0) none (1/2) (1/3)
    (by norm_num) (by norm_num) (by norm_num) (by norm_num)
  exact ⟨(h.1 (Or.inr rfl)).1, (h.2.2.1 (Or.inl rfl)).1, h.2.2.2.2⟩

/-- C5: `update_history(x, y, epoch, message)` leaves slope and intercept
unchanged and appends exactly one record at the end of the existing
history (so prior records are untouched), whose fields are the current
slope and intercept together with prediction, error, loss, epoch and
message computed from the current parameters; and in that record
`prediction = m * x + b`, `error = prediction - y`, `loss = error ^ 2`
hold exactly. -/
theorem C5_update_history (md : LinearModel) (x y : ℚ) (epoch : ℤ)
    (message : Option String) :
    (md.update_history x y epoch message).m = md.m ∧
    (md.update_history x y epoch message).b = md.b ∧
    (md.update_history x y epoch message).history = md.history ++
      [{ m := md.m, b := md.b, observation := (x, y),
         prediction := md.predict x, error := md.error x y,
         loss := md.loss x y, epoch := epoch, message := message }] ∧
    md.predict x = md.m * x + md.b ∧
    md.error x y = md.predict x - y ∧
    md.loss x y = (md.error x y) ^ 2 :=
  ⟨rfl, rfl, rfl, rfl, rfl, rfl⟩

/-- C9: the string representation is `"y = {m}x + {b}"` with both
parameters rendered in fixed-point notation with 3 decimal places; in
particular for slope 2 and intercept 1 it is exactly
`"y = 2.000x + 1.000"`. -/
theorem C9_str (md : LinearModel) :
    md.str = "y = " ++ format3 md.m ++ "x + " ++ format3 md.b ∧
    (LinearModel.mk 2 1 []).str = "y = 2.000x + 1.000" ∧
    format3 (5/4) = "1.250" := by
  have h2 : format3 (2:ℚ) = "2.000" := by
    unfold format3
    rw [if_neg (by norm_num)]
    have e : roundHalfEven ((2:ℚ) * 1000) = 2000 := by
      simp only [roundHalfEven]
      norm_num
    rw [e]
    decide
  have h1 : format3 (1:ℚ) = "1.000" := by
    unfold format3
    rw [if_neg (by norm_num)]
    have e : roundHalfEven ((1:ℚ) * 1000) = 1000 := by
      simp only [roundHalfEven]
      norm_num
    rw [e]
    decide
  have h54 : format3 ((5:ℚ)/4) = "1.250" := by
    unfold format3
    rw [if_neg (by norm_num)]
    have e : roundHalfEven ((5:ℚ)/4 * 1000) = 1250 := by
      simp only [roundHalfEven]
      norm_num
    rw [e]
    decide
  refine ⟨rfl, ?_, h54⟩
  show "y = " ++ format3 (2:ℚ) ++ "x + " ++ format3 (1:ℚ) = "y = 2.000x + 1.000"
  rw [h2, h1]
  decide

/-- C1: for equal-length sequences of nonzero length, `rmse(xs, ys)`
returns the square root of the sum of `loss(x_i, y_i)` over all paired
positions, divided afterwards by `len(xs)` (sqrt of the total loss, then
divide by n). -/
theorem C1_rmse (md : LinearModel) (xs ys : List ℚ)
    (hlen : xs.length = ys.length) (hne : xs.length ≠ 0) :
    md.rmse xs ys = Except.ok
      (Real.sqrt ((∑ i ∈ Finset.range xs.length,
          md.loss (xs.getD i 0) (ys.getD i 0) : ℚ) : ℝ) / (xs.length : ℝ)) := by
  unfold LinearModel.rmse
  rw [if_neg hne, zip_map_sum, ← hlen, min_self]

/-- C1 witness: for the model with slope 2, intercept 1, on the
single-point data xs = [3], ys = [10], the loss is 9 and
rmse = sqrt 9 / 1 = 3. -/
theorem C1_rmse_witness :
    (LinearModel.mk 2 1 []).rmse [3] [10] = Except.ok 3 := by
  have h := C1_rmse (LinearModel.mk 2 1 []) [3] [10] rfl (by decide)
  rw [h]
  norm_num [LinearModel.loss, LinearModel.error, LinearModel.predict,
    Finset.sum_range_succ]
  rw [show ((9:ℝ)) = (3:ℝ)^2 by norm_num, Real.sqrt_sq (by norm_num : (0:ℝ) ≤ 3)]

/-- C2 counterexample: the claim says `rmse` fails whenever the two
sequences differ in length, but on xs = [3], ys = [10, 11] (lengths 1
and 2) the code raises nothing and returns sqrt(loss(3,10)) / 1 = 3. -/
theorem C2_counterexample :
    [(3:ℚ)].length ≠ [(10:ℚ), 11].length ∧
    (LinearModel.mk 2 1 []).rmse [3] [10, 11] = Except.ok 3 := by
  refine ⟨by decide, ?_⟩
  unfold LinearModel.rmse
  rw [if_neg (by decide)]
  norm_num [LinearModel.loss, LinearModel.error, LinearModel.predict,
    List.zip_cons_cons, List.zip_nil_left]
  rw [show ((9:ℝ)) = (3:ℝ)^2 by norm_num, Real.sqrt_sq (by norm_num : (0:ℝ) ≤ 3)]

/-- C2 amended: `rmse(xs, ys)` fails — with Python's `ZeroDivisionError`,
not a length check — exactly when `xs` is empty; for any non-empty `xs`
it returns a value without raising, even when the lengths differ. -/
theorem C2_rmse_error_iff_empty (md : LinearModel) (xs ys : List ℚ) :
    md.rmse xs ys = Except.error PyError.zeroDivisionError ↔ xs = [] := by
  unfold LinearModel.rmse
  by_cases h : xs.length = 0
  · simp [h, List.length_eq_zero.mp h]
  · simp only [if_neg h]
    constructor
    · intro hc
      exact absurd hc (by simp)
    · intro hc
      exact absurd (hc ▸ rfl) h

/-- C10: when `0 < len(xs) ≤ len(ys)`, `rmse(xs, ys)` raises no error
even though the lengths may differ: `zip` pairs elements by position up
to the shorter length (extra elements of `ys` are ignored), and the
result is the sqrt of the sum of losses over those
`min(len(xs), len(ys))` pairs, divided by `len(xs)`. -/
theorem C10_rmse_truncation (md : LinearModel) (xs ys : List ℚ)
    (hle : xs.length ≤ ys.length) (hne : xs.length ≠ 0) :
    md.rmse xs ys = Except.ok
      (Real.sqrt ((∑ i ∈ Finset.range (min xs.length ys.length),
          md.loss (xs.getD i 0) (ys.getD i 0) : ℚ) : ℝ) / (xs.length : ℝ)) ∧
    min xs.length ys.length = xs.length := by
  constructor
  · unfold LinearModel.rmse
    rw [if_neg hne, zip_map_sum]
  · exact min_eq_left hle

/-- C10 witness: xs = [3], ys = [10, 11] have lengths 1 ≤ 2; the model
with slope 2, intercept 1 pairs only (3, 10) and rmse returns
sqrt 9 / 1 = 3 without failing. -/
theorem C10_rmse_truncation_witness :
    (LinearModel.mk 2 1 []).rmse [3] [10, 11] = Except.ok 3 ∧
    min [(3:ℚ)].length [(10:ℚ), 11].length = [(3:ℚ)].length := by
  have h := C10_rmse_truncation (LinearModel.mk 2 1 []) [3] [10, 11]
    (by decide) (by decide)
  refine ⟨?_, h.2⟩
  rw [h.1]
  norm_num [LinearModel.loss, LinearModel.error, LinearModel.predict,
    Finset.sum_range_succ]
  rw [show ((9:ℝ)) = (3:ℝ)^2 by norm_num, Real.sqrt_sq (by norm_num : (0:ℝ) ≤ 3)]
